import Mathlib

/-!
Verification of the project-health-monitor aggregation layer.

The TypeScript sources are shallowly embedded: JS numbers are modelled as
rationals (ℚ), JS strings as `String` or `List Char`, `undefined`-able
values as `Option`, and thrown exceptions as `Except String`.  Each
definition mirrors one source function; external HTTP calls are modelled
as explicit outcome parameters.
-/

deriving instance DecidableEq for Except

namespace ProjectHealth

/-- JS truthiness of a `string | undefined` value: `undefined` and the
empty string are falsy, every other string is truthy. -/
def strTruthy : Option String → Bool
| none => false
| some s => s != ""

namespace Clockify

/-- `ClockifyService.getDurationStatus` (src/unnamed/part_008 lines 73-80).
`estimate` is `number | undefined`; the JS guard `!estimate || estimate === 0`
is falsy exactly on `undefined` and `0` for the numbers we model. -/
def getDurationStatus (estimate : Option ℚ) (actualDuration : ℚ) : String :=
  match estimate with
  | none => "Estimate Not Set"
  | some e =>
    if e = 0 then "Estimate Not Set"
    else if actualDuration = 0 then "Task Not Started"
    else if actualDuration > e then "Overdue"
    else "On Time"

/-- Numeric value of a decimal digit character. -/
def digitVal (c : Char) : ℕ := c.toNat - 48

/-- Models JS `parseInt` on a string of decimal digits. -/
def parseIntDigits (l : List Char) : ℕ :=
  l.foldl (fun a c => 10 * a + digitVal c) 0

/-- Fuel-driven most-significant-first decimal rendering of a natural
number; `natToDec` below supplies enough fuel. -/
def natToDecAux : ℕ → ℕ → List Char
| 0, _ => []
| fuel + 1, n => if n = 0 then [] else natToDecAux fuel (n / 10) ++ [Nat.digitChar (n % 10)]

/-- Decimal rendering of a natural number, modelling JS template
interpolation of a number into a string. -/
def natToDec (n : ℕ) : List Char :=
  if n = 0 then ['0'] else natToDecAux (n + 1) n

/-- Models JS `parseFloat` applied to a string made of an integer digit
part, a dot, and a fractional digit part. -/
def parseFloatDec (intDigits fracDigits : List Char) : ℚ :=
  (parseIntDigits intDigits : ℚ) + (parseIntDigits fracDigits : ℚ) / (10 : ℚ) ^ fracDigits.length

/-- Greedy consumption of leading decimal digits, as the regex atom
`\d+` does; returns the digits and the remaining characters. -/
def takeDigits : List Char → List Char × List Char
| [] => ([], [])
| c :: cs =>
  if c.isDigit then
    let r := takeDigits cs
    (c :: r.1, r.2)
  else ([], c :: cs)

/-- Search for the first occurrence of the literal `PT` and return the
suffix after it, as the unanchored regex match does; every other part of
the regex is optional, so the regex matches iff `PT` occurs. -/
def findPT : List Char → Option (List Char)
| [] => none
| 'P' :: 'T' :: rest => some rest
| _ :: rest => findPT rest

/-- Capture-group extraction of the duration regex after the literal
`PT`: an optional hour digit group followed by `H`, then an optional
minute digit group followed by `M` (a trailing seconds part is consumed
without capture).  `none` means the group did not participate. -/
def matchGroups (rest : List Char) : Option (List Char) × Option (List Char) :=
  let hSpan := takeDigits rest
  match hSpan.2 with
  | 'H' :: afterH =>
    if hSpan.1 = [] then (none, none)
    else
      let mSpan := takeDigits afterH
      match mSpan.2 with
      | 'M' :: _ => if mSpan.1 = [] then (some hSpan.1, none) else (some hSpan.1, some mSpan.1)
      | _ => (some hSpan.1, none)
  | 'M' :: _ => if hSpan.1 = [] then (none, none) else (none, some hSpan.1)
  | _ => (none, none)

/-- Models src/unnamed/part_008 lines 59-66 of
`ClockifyService.getTaskActualDuration`: regex match (0 on failure),
`parseInt` of each group with default `"0"`, and `parseFloat` of the
interpolated template `hours.minutes`. -/
def parseDurationValue (duration : List Char) : ℚ :=
  match findPT duration with
  | none => 0
  | some rest =>
    let g := matchGroups rest
    let hours := parseIntDigits (g.1.getD ['0'])
    let minutes := parseIntDigits (g.2.getD ['0'])
    parseFloatDec (natToDec hours) (natToDec minutes)

/-- Outcome of the upstream task fetch as observed by
`getTaskActualDuration`: the wrapped request threw, the response failed
the `TaskDurationSchema` parse, or it carried a duration string. -/
inductive UpstreamOutcome where
| failure (msg : String)
| malformed
| ok (duration : List Char)

/-- `ClockifyService.getTaskActualDuration` (src/unnamed/part_008 lines
46-71): every upstream failure is caught and converted to `0.0`; an
empty or `PT0S` duration short-circuits to `0.0`. -/
def getTaskActualDuration : UpstreamOutcome → ℚ
| .failure _ => 0
| .malformed => 0
| .ok d => if d = [] ∨ d = ['P', 'T', '0', 'S'] then 0 else parseDurationValue d

/-- The string `PT{h}H{m}M` for natural numbers h and m, rendered with
canonical decimal digits, as a char list. -/
def ptDurationString (h m : ℕ) : List Char :=
  'P' :: 'T' :: (natToDec h ++ 'H' :: (natToDec m ++ ['M']))

end Clockify

namespace Flowlu

/-- Rate limiting configuration (src/unnamed/part_003 lines 6-8). -/
def MAX_RETRIES : ℕ := 3

/-- Delay in milliseconds slept before each retry. -/
def RETRY_DELAY : ℕ := 2000

/-- Minimum spacing in milliseconds enforced before every request. -/
def RATE_LIMIT_DELAY : ℕ := 1000

/-- Outcome of one HTTP call made by `FlowluService.makeRequest`: success
with a payload, an HTTP 429, or any other failure.  The carried message
models `flowluError.response?.data?.message || flowluError.message`. -/
inductive HttpOutcome where
| ok (data : String)
| err429 (msg : String)
| errOther (msg : String)

/-- `FlowluService.makeRequest` retry logic (src/unnamed/part_003 lines
67-106): `responses k` is the outcome of the HTTP call issued with
`retryCount = k`.  A 429 with `retryCount < MAX_RETRIES` sleeps
`RETRY_DELAY` and recurses with `retryCount + 1`; every other failure is
wrapped and rethrown. -/
def makeRequest (responses : ℕ → HttpOutcome) (retryCount : ℕ) : Except String String :=
  match responses retryCount with
  | .ok d => .ok d
  | .err429 m =>
    if h : retryCount < MAX_RETRIES then makeRequest responses (retryCount + 1)
    else .error ("Flowlu API request failed: " ++ m)
  | .errOther m => .error ("Flowlu API request failed: " ++ m)
termination_by MAX_RETRIES - retryCount
decreasing_by omega

/-- Number of HTTP calls `makeRequest` performs from a given retry
count (observer of the same recursion). -/
def makeRequestCalls (responses : ℕ → HttpOutcome) (retryCount : ℕ) : ℕ :=
  match responses retryCount with
  | .ok _ => 1
  | .err429 _ =>
    if h : retryCount < MAX_RETRIES then 1 + makeRequestCalls responses (retryCount + 1)
    else 1
  | .errOther _ => 1
termination_by MAX_RETRIES - retryCount
decreasing_by omega

/-- Total backoff sleep in milliseconds `makeRequest` performs from a
given retry count: `RETRY_DELAY` before each retry, nothing else. -/
def makeRequestBackoff (responses : ℕ → HttpOutcome) (retryCount : ℕ) : ℕ :=
  match responses retryCount with
  | .ok _ => 0
  | .err429 _ =>
    if h : retryCount < MAX_RETRIES then RETRY_DELAY + makeRequestBackoff responses (retryCount + 1)
    else 0
  | .errOther _ => 0
termination_by MAX_RETRIES - retryCount
decreasing_by omega

end Flowlu

namespace GitLab

/-- Input pair of tag names (src/src/controllers/gitlab.controller.ts). -/
structure TagComparison where
  olderTag : String
  newerTag : String

/-- Tag lookup response; `commitId` models `commit?.id`, which optional
chaining may leave undefined. -/
structure GitLabTag where
  name : String
  commitId : Option String

/-- One commit of the upstream compare response. -/
structure GitLabCommit where
  id : String
  short_id : String
  created_at : String
  title : String
  message : String
deriving DecidableEq

/-- Upstream `/repository/compare` response. -/
structure CompareResponse where
  commits : List GitLabCommit
  compare_timeout : Bool
  compare_same_ref : Bool

/-- Commit summary produced by `compareTags`. -/
structure CommitSummary where
  id : String
  createdAt : String
  title : String
  description : Option String
deriving DecidableEq

/-- Does the first list lead the second one, character by character. -/
def leadsWith : List Char → List Char → Bool
| [], _ => true
| _ :: _, [] => false
| p :: ps, c :: cs => p == c && leadsWith ps cs

/-- Replace the first occurrence of `pat` by `repl`, as the JS string
`replace` method with a string pattern does. -/
def replaceFirstList (pat repl : List Char) : List Char → List Char
| [] => if leadsWith pat [] then repl else []
| c :: cs =>
  if leadsWith pat (c :: cs) then repl ++ (c :: cs).drop pat.length
  else c :: replaceFirstList pat repl cs

/-- JS `String.prototype.replace` with a string pattern. -/
def jsReplaceFirst (s pat repl : String) : String :=
  { data := replaceFirstList pat.data repl.data s.data }

/-- JS `String.prototype.trim`: strip whitespace from both ends. -/
def jsTrim (s : String) : String :=
  { data := ((s.data.dropWhile Char.isWhitespace).reverse.dropWhile Char.isWhitespace).reverse }

/-- The commit mapping inside `compareTags` (gitlab.controller.ts lines
155-163). -/
def toCommitSummary (c : GitLabCommit) : CommitSummary :=
  { id := c.short_id
    createdAt := c.created_at
    title := c.title
    description :=
      if c.message ≠ c.title then some (jsTrim (jsReplaceFirst c.message c.title "")) else none }

/-- `GitLabController.getCommitsBetweenTags` (gitlab.controller.ts lines
77-127): an upstream HTTP failure is wrapped; a same-reference or
timed-out comparison is turned into an explicit thrown error, which the
catch block rethrows unchanged because it carries no `response` field. -/
def getCommitsBetweenTags (resp : Except String CompareResponse) : Except String (List GitLabCommit) :=
  match resp with
  | .error m => .error ("Failed to retrieve commits: " ++ m)
  | .ok r =>
    if r.compare_same_ref then .error "Cannot compare the same reference"
    else if r.compare_timeout then .error "Comparison timed out"
    else .ok r.commits

/-- Successful result of `GitLabController.compareTags`. -/
structure CompareTagsOk where
  olderTag : String
  newerTag : String
  totalCommits : ℕ
  commits : List CommitSummary

/-- `GitLabController.compareTags` (gitlab.controller.ts lines 129-169):
`getTag` models `getTagData` per tag name and `compare` models the
upstream compare call on the two resolved commit hashes. -/
def compareTags (getTag : String → Except String GitLabTag)
    (compare : String → String → Except String CompareResponse)
    (comparison : TagComparison) : Except String CompareTagsOk :=
  match getTag comparison.olderTag with
  | .error m => .error m
  | .ok olderTagData =>
    match getTag comparison.newerTag with
    | .error m => .error m
    | .ok newerTagData =>
      if strTruthy olderTagData.commitId && strTruthy newerTagData.commitId then
        match getCommitsBetweenTags
            (compare (olderTagData.commitId.getD "") (newerTagData.commitId.getD "")) with
        | .error m => .error m
        | .ok commits =>
          .ok { olderTag := comparison.olderTag
                newerTag := comparison.newerTag
                totalCommits := commits.length
                commits := commits.map toCommitSummary }
      else .error "Failed to retrieve tag information or invalid tag data structure"

/-- Result shape of `getTagBranchInfo`. -/
structure TagBranchInfo where
  branch : String
  commitId : String
deriving DecidableEq

/-- `GitLabController.getTagBranchInfo` (gitlab.controller.ts lines
212-256): `tagResp` is the tag fetch outcome carrying `commit?.id`;
`refsResp` is the branch-refs fetch outcome for a commit id, carrying
the optional `name` of each entry.  Every failure path lands on the
`unknown` sentinels through the catch block. -/
def getTagBranchInfo (tagResp : Except String (Option String))
    (refsResp : String → Except String (List (Option String))) : TagBranchInfo :=
  match tagResp with
  | .error _ => { branch := "unknown", commitId := "unknown" }
  | .ok commitId? =>
    match commitId? with
    | none => { branch := "unknown", commitId := "unknown" }
    | some cid =>
      if cid = "" then { branch := "unknown", commitId := "unknown" }
      else
        match refsResp cid with
        | .error _ => { branch := "unknown", commitId := "unknown" }
        | .ok entries =>
          { branch :=
              match entries.head? with
              | none => "unknown"
              | some name? =>
                match name? with
                | none => "unknown"
                | some n => if n = "" then "unknown" else n
            commitId := cid }

/-- A release row as produced by `GitLabController.getReleases`. -/
structure GitLabRelease where
  id : ℕ
  name : String
  tag_name : String
  created_at : String

end GitLab

namespace Dashboard

/-- The fields of a Flowlu task used by the aggregation (part_003 task
schema and mapping): `cf_8`/`cf_9` are the two time-tracking reference
custom fields, `type_id = 2` marks a bug. -/
structure FlowluTask where
  id : String
  cf_8 : Option String
  cf_9 : Option String
  type_id : ℕ
  estimate : Option ℚ
  workflow_stage_id : ℕ
deriving DecidableEq

/-- A Flowlu project row (the fields `calculateMetrics` uses). -/
structure FlowluProject where
  id : ℕ
  name : String
deriving DecidableEq

/-- A Flowlu user row. -/
structure FlowluUser where
  id : String
  name : String

/-- The JS guard `task.cf_8 && task.cf_9`: both tracking references
present and nonempty. -/
def taskTracked (t : FlowluTask) : Bool :=
  strTruthy t.cf_8 && strTruthy t.cf_9

/-- Running totals of the `calculateMetrics` task loop. -/
structure MetricTotals where
  totalFeatures : ℕ
  totalBugs : ℕ
  totalDevelopmentTime : ℚ
  totalQaTime : ℚ
deriving DecidableEq

/-- One iteration of the task loop in `DashboardService.calculateMetrics`
(src/unnamed/part_004 lines 139-155): only tasks with both tracking
references populated are counted; `type_id = 2` accumulates into bugs
and QA time, everything else into features and development time.  `dur`
models `clockifyService.getTaskActualDuration` on the two references. -/
def accumTask (dur : FlowluTask → ℚ) (acc : MetricTotals) (task : FlowluTask) : MetricTotals :=
  if taskTracked task then
    if task.type_id = 2 then
      { acc with totalBugs := acc.totalBugs + 1, totalQaTime := acc.totalQaTime + dur task }
    else
      { acc with
          totalFeatures := acc.totalFeatures + 1
          totalDevelopmentTime := acc.totalDevelopmentTime + dur task }
  else acc

/-- The task loop folded over a task list. -/
def accumTasks (dur : FlowluTask → ℚ) (acc : MetricTotals) (tasks : List FlowluTask) : MetricTotals :=
  tasks.foldl (accumTask dur) acc

/-- The per-project loop of `calculateMetrics`: fetch each target
project's tasks (which may throw) and fold the task loop over them. -/
def accumProjects (tasksOf : FlowluProject → Except String (List FlowluTask))
    (dur : FlowluTask → ℚ) (acc : MetricTotals) :
    List FlowluProject → Except String MetricTotals
| [] => .ok acc
| p :: ps =>
  match tasksOf p with
  | .error m => .error m
  | .ok tasks => accumProjects tasksOf dur (accumTasks dur acc tasks) ps

/-- Successful result of `DashboardService.calculateMetrics`. -/
structure CalculateMetricsOk where
  totalCommits : ℕ
  totalFeatures : ℕ
  totalBugs : ℕ
  totalDevelopmentTime : ℚ
  totalQaTime : ℚ
  totalReleases : ℕ
  commits : List GitLab.CommitSummary
deriving DecidableEq

/-- `DashboardService.calculateMetrics` (src/unnamed/part_004 lines
87-171).  The awaited upstream calls are passed as outcomes, in source
order: the tag comparison, the releases list, the users list, the
project list, per-project task fetches, and the per-task Clockify
duration.  The JS filter guard `projectId ? ... : ...` is falsy on
`undefined` and `0`; an empty target list throws the not-found error;
errors propagate (the catch block rethrows). -/
def calculateMetrics
    (compareResult : Except String GitLab.CompareTagsOk)
    (releasesResult : Except String (List GitLab.GitLabRelease))
    (usersResult : Except String (List FlowluUser))
    (projectsResult : Except String (List FlowluProject))
    (tasksOf : FlowluProject → Except String (List FlowluTask))
    (dur : FlowluTask → ℚ)
    (projectId : Option ℕ) : Except String CalculateMetricsOk :=
  match compareResult with
  | .error m => .error m
  | .ok gitLabCommits =>
    match releasesResult with
    | .error m => .error m
    | .ok releases =>
      match usersResult with
      | .error m => .error m
      | .ok _users =>
        match projectsResult with
        | .error m => .error m
        | .ok projects =>
          let targetProjects :=
            match projectId with
            | some pid => if pid = 0 then projects else projects.filter (fun p => p.id == pid)
            | none => projects
          if targetProjects.length = 0 then
            .error ("Project with ID "
              ++ (match projectId with | some pid => toString pid | none => "undefined")
              ++ " not found")
          else
            match accumProjects tasksOf dur
                { totalFeatures := 0, totalBugs := 0
                  totalDevelopmentTime := 0, totalQaTime := 0 } targetProjects with
            | .error m => .error m
            | .ok totals =>
              .ok { totalCommits := gitLabCommits.totalCommits
                    totalFeatures := totals.totalFeatures
                    totalBugs := totals.totalBugs
                    totalDevelopmentTime := totals.totalDevelopmentTime
                    totalQaTime := totals.totalQaTime
                    totalReleases := releases.length
                    commits := gitLabCommits.commits }

/-- Raw query of the metrics endpoint: each field may be absent. -/
structure MetricsQuery where
  olderTag : Option String
  newerTag : Option String
  projectId : Option String

/-- Output of `MetricsQuerySchema.parse`: all three fields are required
strings; `projectId` is transformed by `val ? Number(val) : undefined`,
with `toNumber` modelling the JS `Number` conversion. -/
structure ParsedMetricsQuery where
  olderTag : String
  newerTag : String
  projectId : Option ℚ

/-- `MetricsQuerySchema.parse` (dashboard.controller.ts lines 18-22):
throws a ZodError when any of the three fields is missing. -/
def zodParseMetricsQuery (toNumber : String → ℚ) (q : MetricsQuery) :
    Except String ParsedMetricsQuery :=
  match q.olderTag, q.newerTag, q.projectId with
  | some o, some n, some p =>
    .ok { olderTag := o, newerTag := n
          projectId := if p = "" then none else some (toNumber p) }
  | _, _, _ => .error "ZodError: Required"

/-- HTTP response body of the metrics endpoint: the metrics JSON on
success, or the uniform error/details object. -/
inductive MetricsResponseBody where
| metrics (m : CalculateMetricsOk)
| failure (error details : String)

/-- `DashboardController.getMetrics` (dashboard.controller.ts lines
60-93): a single catch block maps every thrown error, ZodError from
query parsing included, to status 500 with the `{error, details}`
body. -/
def getMetrics (toNumber : String → ℚ)
    (svc : ParsedMetricsQuery → Except String CalculateMetricsOk)
    (q : MetricsQuery) : ℕ × MetricsResponseBody :=
  match zodParseMetricsQuery toNumber q with
  | .error e => (500, .failure "Failed to calculate metrics" e)
  | .ok parsed =>
    match svc parsed with
    | .error e => (500, .failure "Failed to calculate metrics" e)
    | .ok m => (200, .metrics m)

/-- Successful result of `DashboardService.getTaskMetrics`. -/
structure TaskMetricsOk where
  projectId : ℕ
  projectName : String
  totalTasks : ℕ
  inProgress : ℕ
  completed : ℕ
  overdue : ℕ
  averageCompletionTime : ℚ

/-- HTTP response body of the task-metrics endpoint. -/
inductive TaskMetricsResponseBody where
| metrics (m : TaskMetricsOk)
| failure (error details : String)

/-- `DashboardController.getTaskMetrics` (dashboard.controller.ts lines
215-237): an explicit falsy check on `req.query.projectId` returns 400
with the structured detail; every thrown service error maps to 500. -/
def getTaskMetrics (svc : String → Except String TaskMetricsOk)
    (projectId : Option String) : ℕ × TaskMetricsResponseBody :=
  match projectId with
  | none =>
    (400, .failure "Project ID is required" "Please provide a project ID in the query parameters")
  | some p =>
    if p = "" then
      (400, .failure "Project ID is required" "Please provide a project ID in the query parameters")
    else
      match svc p with
      | .error e => (500, .failure "Failed to get task metrics" e)
      | .ok m => (200, .metrics m)

end Dashboard

end ProjectHealth

open ProjectHealth

/-- C2: `getDurationStatus` satisfies the case table: an undefined
estimate yields Estimate Not Set; a defined nonzero estimate with zero
actual yields Task Not Started; otherwise actual strictly greater than
the estimate yields Overdue and actual at most the estimate yields On
Time; in particular the four listed example calls return the four listed
labels. -/
theorem C2_getDurationStatus_case_table :
    (∀ a : ℚ, Clockify.getDurationStatus none a = "Estimate Not Set")
    ∧ (∀ e : ℚ, e ≠ 0 → Clockify.getDurationStatus (some e) 0 = "Task Not Started")
    ∧ (∀ e a : ℚ, e ≠ 0 → a ≠ 0 → e < a → Clockify.getDurationStatus (some e) a = "Overdue")
    ∧ (∀ e a : ℚ, e ≠ 0 → a ≠ 0 → a ≤ e → Clockify.getDurationStatus (some e) a = "On Time")
    ∧ Clockify.getDurationStatus none 5 = "Estimate Not Set"
    ∧ Clockify.getDurationStatus (some 10) 0 = "Task Not Started"
    ∧ Clockify.getDurationStatus (some 5) 6 = "Overdue"
    ∧ Clockify.getDurationStatus (some 10) 5 = "On Time" := by
  refine ⟨fun a => rfl, fun e he => ?_, fun e a he ha hlt => ?_, fun e a he ha hle => ?_,
    rfl, by norm_num [Clockify.getDurationStatus], by norm_num [Clockify.getDurationStatus],
    by norm_num [Clockify.getDurationStatus]⟩
  · simp [Clockify.getDurationStatus, he]
  · simp [Clockify.getDurationStatus, he, ha, hlt]
  · simp [Clockify.getDurationStatus, he, ha, not_lt.mpr hle]

/-- Witness for C2: the quantified parts of the case table instantiated
at the example inputs of the claim. -/
theorem C2_getDurationStatus_case_table_witness :
    Clockify.getDurationStatus (some 10) 0 = "Task Not Started"
    ∧ Clockify.getDurationStatus (some 5) 6 = "Overdue"
    ∧ Clockify.getDurationStatus (some 10) 5 = "On Time" :=
  ⟨C2_getDurationStatus_case_table.2.1 10 (by norm_num),
   C2_getDurationStatus_case_table.2.2.1 5 6 (by norm_num) (by norm_num) (by norm_num),
   C2_getDurationStatus_case_table.2.2.2.1 10 5 (by norm_num) (by norm_num) (by norm_num)⟩

/-- C10: `getDurationStatus` treats a zero estimate exactly like an
absent one: for every actual duration it returns Estimate Not Set, so a
zero-estimate task is never classified Overdue, On Time, or Task Not
Started. -/
theorem C10_zero_estimate_is_estimate_not_set :
    ∀ a : ℚ,
      Clockify.getDurationStatus (some 0) a = "Estimate Not Set"
      ∧ Clockify.getDurationStatus (some 0) a ≠ "Overdue"
      ∧ Clockify.getDurationStatus (some 0) a ≠ "On Time"
      ∧ Clockify.getDurationStatus (some 0) a ≠ "Task Not Started" := by
  intro a
  refine ⟨by simp [Clockify.getDurationStatus], ?_, ?_, ?_⟩ <;>
    simp [Clockify.getDurationStatus]

namespace ProjectHealth.Clockify

theorem parseIntDigits_append (l : List Char) (c : Char) :
    parseIntDigits (l ++ [c]) = 10 * parseIntDigits l + digitVal c := by
  simp [parseIntDigits, List.foldl_append]

theorem digitVal_digitChar {m : ℕ} (h : m < 10) : digitVal (Nat.digitChar m) = m := by
  interval_cases m <;> rfl

theorem isDigit_digitChar {m : ℕ} (h : m < 10) : (Nat.digitChar m).isDigit = true := by
  interval_cases m <;> rfl

theorem parseIntDigits_natToDecAux :
    ∀ fuel n, n ≤ fuel → parseIntDigits (natToDecAux fuel n) = n := by
  intro fuel
  induction fuel with
  | zero =>
    intro n hn
    interval_cases n
    rfl
  | succ fuel ih =>
    intro n hn
    by_cases h0 : n = 0
    · subst h0
      simp [natToDecAux, parseIntDigits]
    · have hdiv : n / 10 ≤ fuel := by
        have : n / 10 < n := Nat.div_lt_self (Nat.pos_of_ne_zero h0) (by norm_num)
        omega
      simp only [natToDecAux, if_neg h0]
      rw [parseIntDigits_append, ih _ hdiv, digitVal_digitChar (Nat.mod_lt _ (by norm_num))]
      omega

theorem mem_natToDecAux_isDigit :
    ∀ fuel n c, c ∈ natToDecAux fuel n → c.isDigit = true := by
  intro fuel
  induction fuel with
  | zero =>
    intro n c hc
    simp [natToDecAux] at hc
  | succ fuel ih =>
    intro n c hc
    simp only [natToDecAux] at hc
    by_cases h0 : n = 0
    · rw [if_pos h0] at hc
      simp at hc
    · rw [if_neg h0] at hc
      rcases List.mem_append.mp hc with h | h
      · exact ih _ _ h
      · simp at h
        subst h
        exact isDigit_digitChar (Nat.mod_lt _ (by norm_num))

theorem parseIntDigits_natToDec (n : ℕ) : parseIntDigits (natToDec n) = n := by
  by_cases h0 : n = 0
  · subst h0
    rfl
  · simp only [natToDec, if_neg h0]
    exact parseIntDigits_natToDecAux (n + 1) n (by omega)

theorem natToDec_ne_nil (n : ℕ) : natToDec n ≠ [] := by
  by_cases h0 : n = 0
  · subst h0
    simp [natToDec]
  · simp only [natToDec, if_neg h0, natToDecAux]
    simp

theorem mem_natToDec_isDigit {n : ℕ} {c : Char} (hc : c ∈ natToDec n) : c.isDigit = true := by
  by_cases h0 : n = 0
  · subst h0
    simp [natToDec] at hc
    subst hc
    rfl
  · simp only [natToDec, if_neg h0] at hc
    exact mem_natToDecAux_isDigit _ _ _ hc

theorem takeDigits_append (dl rest : List Char)
    (hdl : ∀ c ∈ dl, c.isDigit = true)
    (hrest : ∀ c, rest.head? = some c → c.isDigit = false) :
    takeDigits (dl ++ rest) = (dl, rest) := by
  induction dl with
  | nil =>
    simp only [List.nil_append]
    cases rest with
    | nil => rfl
    | cons c cs =>
      have hc := hrest c rfl
      simp [takeDigits, hc]
  | cons d dl ih =>
    have hd : d.isDigit = true := hdl d (by simp)
    simp only [List.cons_append, takeDigits, hd, if_true, List.append_eq]
    rw [ih (fun c hc => hdl c (by simp [hc]))]

theorem findPT_pt (rest : List Char) : findPT ('P' :: 'T' :: rest) = some rest := rfl

theorem matchGroups_pt (h m : ℕ) :
    matchGroups (natToDec h ++ 'H' :: (natToDec m ++ ['M']))
      = (some (natToDec h), some (natToDec m)) := by
  have t1 : takeDigits (natToDec h ++ 'H' :: (natToDec m ++ ['M']))
      = (natToDec h, 'H' :: (natToDec m ++ ['M'])) :=
    takeDigits_append _ _ (fun _ hc => mem_natToDec_isDigit hc)
      (fun c hc => by simp at hc; subst hc; rfl)
  have t2 : takeDigits (natToDec m ++ ['M']) = (natToDec m, ['M']) :=
    takeDigits_append _ _ (fun _ hc => mem_natToDec_isDigit hc)
      (fun c hc => by simp at hc; subst hc; rfl)
  simp only [matchGroups, t1, t2, if_neg (natToDec_ne_nil h), if_neg (natToDec_ne_nil m)]

theorem parseDurationValue_pt (h m : ℕ) :
    parseDurationValue (ptDurationString h m)
      = parseFloatDec (natToDec h) (natToDec m) := by
  simp only [parseDurationValue, ptDurationString, findPT_pt, matchGroups_pt,
    Option.getD_some, parseIntDigits_natToDec]

theorem parseFloatDec_natToDec (h m : ℕ) :
    parseFloatDec (natToDec h) (natToDec m)
      = (h : ℚ) + (m : ℚ) / (10 : ℚ) ^ (natToDec m).length := by
  simp [parseFloatDec, parseIntDigits_natToDec]

theorem ptDurationString_ne_guards (h m : ℕ) :
    ¬(ptDurationString h m = [] ∨ ptDurationString h m = ['P', 'T', '0', 'S']) := by
  rintro (habs | habs)
  · simp [ptDurationString] at habs
  · have hlen := congrArg List.length habs
    have h1 : 1 ≤ (natToDec h).length := List.length_pos.mpr (natToDec_ne_nil h)
    have h2 : 1 ≤ (natToDec m).length := List.length_pos.mpr (natToDec_ne_nil m)
    simp [ptDurationString] at hlen
    omega

end ProjectHealth.Clockify

/-- C1: for every duration string of the form PThHmM, the parser inside
`getTaskActualDuration` returns the value of the decimal string obtained
by concatenating the hour digits, a dot, and the minute digits, not the
fractional-hour value: PT2H45M yields 2.45 (not 2.75), and PT1H5M and
PT1H50M collide on 1.5. -/
theorem C1_parseDuration_literal_concatenation :
    (∀ h m : ℕ,
      Clockify.getTaskActualDuration (.ok (Clockify.ptDurationString h m))
          = Clockify.parseFloatDec (Clockify.natToDec h) (Clockify.natToDec m)
        ∧ Clockify.getTaskActualDuration (.ok (Clockify.ptDurationString h m))
          = (h : ℚ) + (m : ℚ) / (10 : ℚ) ^ (Clockify.natToDec m).length)
    ∧ Clockify.getTaskActualDuration (.ok ['P', 'T', '2', 'H', '4', '5', 'M']) = 2.45
    ∧ (2.45 : ℚ) ≠ 2.75
    ∧ Clockify.getTaskActualDuration (.ok ['P', 'T', '1', 'H', '5', 'M']) = 1.5
    ∧ Clockify.getTaskActualDuration (.ok ['P', 'T', '1', 'H', '5', '0', 'M']) = 1.5 := by
  have key : ∀ h m : ℕ,
      Clockify.getTaskActualDuration (.ok (Clockify.ptDurationString h m))
        = Clockify.parseFloatDec (Clockify.natToDec h) (Clockify.natToDec m) := by
    intro h m
    simp only [Clockify.getTaskActualDuration]
    rw [if_neg (Clockify.ptDurationString_ne_guards h m), Clockify.parseDurationValue_pt]
  refine ⟨fun h m => ⟨key h m, ?_⟩, ?_, by norm_num, ?_, ?_⟩
  · rw [key h m, Clockify.parseFloatDec_natToDec]
  · have h1 : Clockify.ptDurationString 2 45 = ['P', 'T', '2', 'H', '4', '5', 'M'] := by decide
    rw [← h1, key 2 45, Clockify.parseFloatDec_natToDec]
    norm_num [Clockify.natToDec, Clockify.natToDecAux]
  · have h1 : Clockify.ptDurationString 1 5 = ['P', 'T', '1', 'H', '5', 'M'] := by decide
    rw [← h1, key 1 5, Clockify.parseFloatDec_natToDec]
    norm_num [Clockify.natToDec, Clockify.natToDecAux]
  · have h1 : Clockify.ptDurationString 1 50 = ['P', 'T', '1', 'H', '5', '0', 'M'] := by decide
    rw [← h1, key 1 50, Clockify.parseFloatDec_natToDec]
    norm_num [Clockify.natToDec, Clockify.natToDecAux]

/-- C9: `getTaskActualDuration` converts every failure to 0.0 instead of
rethrowing: an upstream HTTP failure, a schema-violating response, an
empty or PT0S duration, and a duration string the regex does not match
all yield 0. -/
theorem C9_getTaskActualDuration_silent_zero :
    (∀ msg, Clockify.getTaskActualDuration (.failure msg) = 0)
    ∧ Clockify.getTaskActualDuration .malformed = 0
    ∧ Clockify.getTaskActualDuration (.ok []) = 0
    ∧ Clockify.getTaskActualDuration (.ok ['P', 'T', '0', 'S']) = 0
    ∧ (∀ d, Clockify.findPT d = none → Clockify.getTaskActualDuration (.ok d) = 0) := by
  refine ⟨fun msg => rfl, rfl, rfl, by decide, fun d hd => ?_⟩
  simp only [Clockify.getTaskActualDuration]
  by_cases hguard : d = [] ∨ d = ['P', 'T', '0', 'S']
  · rw [if_pos hguard]
  · rw [if_neg hguard]
    simp [Clockify.parseDurationValue, hd]

/-- Witness for C9: a concrete string the duration regex does not match
evaluates to 0. -/
theorem C9_getTaskActualDuration_silent_zero_witness :
    Clockify.getTaskActualDuration (.ok ['X', 'Y']) = 0 :=
  C9_getTaskActualDuration_silent_zero.2.2.2.2 ['X', 'Y'] rfl

namespace ProjectHealth.Dashboard

theorem accumTask_not_tracked (dur : FlowluTask → ℚ) (acc : MetricTotals) (t : FlowluTask)
    (h : taskTracked t = false) : accumTask dur acc t = acc := by
  simp [accumTask, h]

theorem accumTasks_cons (dur : FlowluTask → ℚ) (acc : MetricTotals) (t : FlowluTask)
    (ts : List FlowluTask) :
    accumTasks dur acc (t :: ts) = accumTasks dur (accumTask dur acc t) ts := rfl

theorem accumTask_tracked_count (dur : FlowluTask → ℚ) (acc : MetricTotals) (t : FlowluTask)
    (h : taskTracked t = true) :
    (accumTask dur acc t).totalBugs + (accumTask dur acc t).totalFeatures
      = acc.totalBugs + acc.totalFeatures + 1 := by
  by_cases h2 : t.type_id = 2 <;> simp [accumTask, h, h2] <;> omega

theorem accumTasks_partition (dur : FlowluTask → ℚ) (tasks : List FlowluTask) :
    ∀ acc : MetricTotals,
      (accumTasks dur acc tasks).totalBugs + (accumTasks dur acc tasks).totalFeatures
        = acc.totalBugs + acc.totalFeatures + (tasks.filter taskTracked).length := by
  induction tasks with
  | nil =>
    intro acc
    simp [accumTasks]
  | cons t ts ih =>
    intro acc
    rw [accumTasks_cons, ih]
    cases ht : taskTracked t with
    | false =>
      rw [List.filter_cons_of_neg (by simp [ht]), accumTask_not_tracked dur acc t ht]
    | true =>
      rw [List.filter_cons_of_pos (by simp [ht]), accumTask_tracked_count dur acc t ht]
      simp
      omega

theorem accumTasks_filter_tracked (dur : FlowluTask → ℚ) (tasks : List FlowluTask) :
    ∀ acc : MetricTotals,
      accumTasks dur acc (tasks.filter taskTracked) = accumTasks dur acc tasks := by
  induction tasks with
  | nil =>
    intro acc
    rfl
  | cons t ts ih =>
    intro acc
    cases ht : taskTracked t with
    | false =>
      rw [List.filter_cons_of_neg (by simp [ht]), accumTasks_cons,
        accumTask_not_tracked dur acc t ht]
      exact ih acc
    | true =>
      rw [List.filter_cons_of_pos (by simp [ht]), accumTasks_cons, accumTasks_cons]
      exact ih _

theorem sum_map_of_const (dur : FlowluTask → ℚ) (q : ℚ) (l : List FlowluTask)
    (h : ∀ t ∈ l, dur t = q) : (l.map dur).sum = l.length * q := by
  induction l with
  | nil => simp
  | cons t ts ih =>
    simp only [List.map_cons, List.sum_cons, List.length_cons]
    rw [h t (by simp), ih (fun x hx => h x (by simp [hx]))]
    push_cast
    ring

theorem accumTasks_totalBugs_all (dur : FlowluTask → ℚ) (tasks : List FlowluTask) :
    ∀ acc : MetricTotals, (∀ t ∈ tasks, taskTracked t = true) →
      (accumTasks dur acc tasks).totalBugs
        = acc.totalBugs + (tasks.filter (fun t => t.type_id == 2)).length := by
  induction tasks with
  | nil => intro acc _; simp [accumTasks]
  | cons t ts ih =>
    intro acc hall
    have ht : taskTracked t = true := hall t (by simp)
    rw [accumTasks_cons, ih _ (fun x hx => hall x (by simp [hx])), List.filter_cons]
    by_cases h2 : t.type_id = 2 <;> simp [accumTask, ht, h2] <;> omega

theorem accumTasks_totalFeatures_all (dur : FlowluTask → ℚ) (tasks : List FlowluTask) :
    ∀ acc : MetricTotals, (∀ t ∈ tasks, taskTracked t = true) →
      (accumTasks dur acc tasks).totalFeatures
        = acc.totalFeatures + (tasks.filter (fun t => !(t.type_id == 2))).length := by
  induction tasks with
  | nil => intro acc _; simp [accumTasks]
  | cons t ts ih =>
    intro acc hall
    have ht : taskTracked t = true := hall t (by simp)
    rw [accumTasks_cons, ih _ (fun x hx => hall x (by simp [hx])), List.filter_cons]
    by_cases h2 : t.type_id = 2 <;> simp [accumTask, ht, h2] <;> omega

theorem accumTasks_totalQaTime_all (dur : FlowluTask → ℚ) (tasks : List FlowluTask) :
    ∀ acc : MetricTotals, (∀ t ∈ tasks, taskTracked t = true) →
      (accumTasks dur acc tasks).totalQaTime
        = acc.totalQaTime + ((tasks.filter (fun t => t.type_id == 2)).map dur).sum := by
  induction tasks with
  | nil => intro acc _; simp [accumTasks]
  | cons t ts ih =>
    intro acc hall
    have ht : taskTracked t = true := hall t (by simp)
    rw [accumTasks_cons, ih _ (fun x hx => hall x (by simp [hx])), List.filter_cons]
    by_cases h2 : t.type_id = 2 <;> simp [accumTask, ht, h2] <;> ring

theorem accumTasks_totalDevelopmentTime_all (dur : FlowluTask → ℚ) (tasks : List FlowluTask) :
    ∀ acc : MetricTotals, (∀ t ∈ tasks, taskTracked t = true) →
      (accumTasks dur acc tasks).totalDevelopmentTime
        = acc.totalDevelopmentTime + ((tasks.filter (fun t => !(t.type_id == 2))).map dur).sum := by
  induction tasks with
  | nil => intro acc _; simp [accumTasks]
  | cons t ts ih =>
    intro acc hall
    have ht : taskTracked t = true := hall t (by simp)
    rw [accumTasks_cons, ih _ (fun x hx => hall x (by simp [hx])), List.filter_cons]
    by_cases h2 : t.type_id = 2 <;> simp [accumTask, ht, h2] <;> ring

end ProjectHealth.Dashboard

/-- C3: in `calculateMetrics`, for every task list containing both a
bug-typed and a feature-typed task, the returned totalBugs plus
totalFeatures equals the number of tasks whose two tracking reference
fields are both populated, and dropping the unpopulated tasks changes
neither the buckets nor the time totals. -/
theorem C3_bug_feature_partition :
    ∀ (cmp : GitLab.CompareTagsOk) (releases : List GitLab.GitLabRelease)
      (users : List Dashboard.FlowluUser) (p : Dashboard.FlowluProject)
      (tasks : List Dashboard.FlowluTask) (dur : Dashboard.FlowluTask → ℚ)
      (r : Dashboard.CalculateMetricsOk),
      (∃ t ∈ tasks, t.type_id = 2) →
      (∃ t ∈ tasks, t.type_id = 1) →
      Dashboard.calculateMetrics (.ok cmp) (.ok releases) (.ok users) (.ok [p])
          (fun _ => .ok tasks) dur none = .ok r →
      r.totalBugs + r.totalFeatures = (tasks.filter Dashboard.taskTracked).length
      ∧ ∀ acc, Dashboard.accumTasks dur acc (tasks.filter Dashboard.taskTracked)
          = Dashboard.accumTasks dur acc tasks := by
  intro cmp releases users p tasks dur r _hbug _hfeat hr
  simp only [Dashboard.calculateMetrics, Dashboard.accumProjects, List.length_cons,
    List.length_nil] at hr
  norm_num at hr
  refine ⟨?_, fun acc => Dashboard.accumTasks_filter_tracked dur tasks acc⟩
  rw [← hr]
  have := Dashboard.accumTasks_partition dur tasks
    { totalFeatures := 0, totalBugs := 0, totalDevelopmentTime := 0, totalQaTime := 0 }
  simpa using this

/-- Witness for C3: a two-task list (one tracked bug, one untracked
feature) yields totalBugs + totalFeatures = 1, the number of fully
tracked tasks. -/
theorem C3_bug_feature_partition_witness :
    (1 : ℕ) + 0 = 1 := by
  have h := C3_bug_feature_partition
    { olderTag := "v1", newerTag := "v2", totalCommits := 0, commits := [] } [] []
    { id := 1, name := "P" }
    [{ id := "t1", cf_8 := some "c", cf_9 := some "p", type_id := 2, estimate := none,
       workflow_stage_id := 9 },
     { id := "t2", cf_8 := none, cf_9 := some "p", type_id := 1, estimate := none,
       workflow_stage_id := 9 }]
    (fun _ => 0)
    { totalCommits := 0, totalFeatures := 0, totalBugs := 1, totalDevelopmentTime := 0,
      totalQaTime := 0, totalReleases := 0, commits := [] }
    (by decide) (by decide)
    (by
      norm_num [Dashboard.calculateMetrics, Dashboard.accumProjects, Dashboard.accumTasks,
        Dashboard.accumTask, Dashboard.taskTracked, ProjectHealth.strTruthy]
      decide)
  simpa using h.1

namespace ProjectHealth.GitLab

theorem compareTags_ok_eval (getTag : String → Except String GitLabTag)
    (compare : String → String → Except String CompareResponse)
    (comparison : TagComparison) (oldT newT : GitLabTag) (resp : CompareResponse)
    (h1 : getTag comparison.olderTag = .ok oldT)
    (h2 : getTag comparison.newerTag = .ok newT)
    (h3 : strTruthy oldT.commitId = true)
    (h4 : strTruthy newT.commitId = true)
    (h5 : compare (oldT.commitId.getD "") (newT.commitId.getD "") = .ok resp)
    (h6 : resp.compare_same_ref = false)
    (h7 : resp.compare_timeout = false) :
    compareTags getTag compare comparison
      = .ok { olderTag := comparison.olderTag
              newerTag := comparison.newerTag
              totalCommits := resp.commits.length
              commits := resp.commits.map toCommitSummary } := by
  simp only [compareTags, h1, h2, h3, h4, Bool.and_self, if_true,
    getCommitsBetweenTags, h5, h6, h7, Bool.false_eq_true, if_false]

end ProjectHealth.GitLab

/-- C4: end to end, a comparison resolving to 5 commits combined with 2
tracked bug tasks and 3 tracked feature tasks, each of duration 2.0,
makes `calculateMetrics` return totalCommits 5, totalBugs 2,
totalFeatures 3, totalQaTime 4.0 and totalDevelopmentTime 6.0 (bug
durations accumulate into QA time, feature durations into development
time). -/
theorem C4_calculateMetrics_end_to_end :
    ∀ (getTag : String → Except String GitLab.GitLabTag)
      (compare : String → String → Except String GitLab.CompareResponse)
      (comparison : GitLab.TagComparison) (oldT newT : GitLab.GitLabTag)
      (resp : GitLab.CompareResponse) (releases : List GitLab.GitLabRelease)
      (users : List Dashboard.FlowluUser) (p : Dashboard.FlowluProject)
      (tasks : List Dashboard.FlowluTask) (dur : Dashboard.FlowluTask → ℚ),
      getTag comparison.olderTag = .ok oldT →
      getTag comparison.newerTag = .ok newT →
      strTruthy oldT.commitId = true →
      strTruthy newT.commitId = true →
      compare (oldT.commitId.getD "") (newT.commitId.getD "") = .ok resp →
      resp.compare_same_ref = false →
      resp.compare_timeout = false →
      resp.commits.length = 5 →
      (tasks.filter (fun t => t.type_id == 2)).length = 2 →
      (tasks.filter (fun t => !(t.type_id == 2))).length = 3 →
      (∀ t ∈ tasks, Dashboard.taskTracked t = true) →
      (∀ t ∈ tasks, dur t = 2) →
      Dashboard.calculateMetrics (GitLab.compareTags getTag compare comparison)
          (.ok releases) (.ok users) (.ok [p]) (fun _ => .ok tasks) dur none
        = .ok { totalCommits := 5
                totalFeatures := 3
                totalBugs := 2
                totalDevelopmentTime := 6
                totalQaTime := 4
                totalReleases := releases.length
                commits := resp.commits.map GitLab.toCommitSummary } := by
  intro getTag compare comparison oldT newT resp releases users p tasks dur
  intro h1 h2 h3 h4 h5 h6 h7 hn hbugs hfeats htracked hdur
  rw [GitLab.compareTags_ok_eval getTag compare comparison oldT newT resp h1 h2 h3 h4 h5 h6 h7]
  simp only [Dashboard.calculateMetrics, Dashboard.accumProjects, List.length_cons,
    List.length_nil]
  norm_num
  have init :
      Dashboard.MetricTotals.mk 0 0 0 0
        = { totalFeatures := 0, totalBugs := 0, totalDevelopmentTime := 0, totalQaTime := 0 } :=
    rfl
  have hqa : ((tasks.filter (fun t => t.type_id == 2)).map dur).sum = 4 := by
    rw [Dashboard.sum_map_of_const dur 2 _
      (fun t ht => hdur t (List.mem_of_mem_filter ht)), hbugs]
    norm_num
  have hdev : ((tasks.filter (fun t => !(t.type_id == 2))).map dur).sum = 6 := by
    rw [Dashboard.sum_map_of_const dur 2 _
      (fun t ht => hdur t (List.mem_of_mem_filter ht)), hfeats]
    norm_num
  refine ⟨hn, ?_, ?_, ?_, ?_⟩
  · rw [Dashboard.accumTasks_totalFeatures_all dur tasks _ htracked, hfeats]
  · rw [Dashboard.accumTasks_totalBugs_all dur tasks _ htracked, hbugs]
  · rw [Dashboard.accumTasks_totalDevelopmentTime_all dur tasks _ htracked, hdev]
    norm_num
  · rw [Dashboard.accumTasks_totalQaTime_all dur tasks _ htracked, hqa]
    norm_num

/-- Witness for C4: concrete mocked upstreams (5 commits, 2 tracked bug
tasks and 3 tracked feature tasks of duration 2.0) produce exactly the
claimed metrics. -/
theorem C4_calculateMetrics_end_to_end_witness :
    Dashboard.calculateMetrics
        (GitLab.compareTags
          (fun _ => .ok { name := "tag", commitId := some "hash" })
          (fun _ _ => .ok
            { commits :=
                [{ id := "c1", short_id := "s1", created_at := "d1", title := "t1", message := "t1" },
                 { id := "c2", short_id := "s2", created_at := "d2", title := "t2", message := "t2" },
                 { id := "c3", short_id := "s3", created_at := "d3", title := "t3", message := "t3" },
                 { id := "c4", short_id := "s4", created_at := "d4", title := "t4", message := "t4" },
                 { id := "c5", short_id := "s5", created_at := "d5", title := "t5", message := "t5" }]
              compare_timeout := false
              compare_same_ref := false })
          { olderTag := "v1.0.0", newerTag := "v2.0.0" })
        (.ok []) (.ok []) (.ok [{ id := 1, name := "P" }])
        (fun _ => .ok
          [{ id := "b1", cf_8 := some "r1", cf_9 := some "p1", type_id := 2, estimate := none,
             workflow_stage_id := 9 },
           { id := "b2", cf_8 := some "r2", cf_9 := some "p2", type_id := 2, estimate := none,
             workflow_stage_id := 10 },
           { id := "f1", cf_8 := some "r3", cf_9 := some "p3", type_id := 1, estimate := none,
             workflow_stage_id := 9 },
           { id := "f2", cf_8 := some "r4", cf_9 := some "p4", type_id := 1, estimate := none,
             workflow_stage_id := 9 },
           { id := "f3", cf_8 := some "r5", cf_9 := some "p5", type_id := 1, estimate := none,
             workflow_stage_id := 10 }])
        (fun _ => 2) none
      = .ok { totalCommits := 5
              totalFeatures := 3
              totalBugs := 2
              totalDevelopmentTime := 6
              totalQaTime := 4
              totalReleases := 0
              commits := List.map GitLab.toCommitSummary
                [{ id := "c1", short_id := "s1", created_at := "d1", title := "t1", message := "t1" },
                 { id := "c2", short_id := "s2", created_at := "d2", title := "t2", message := "t2" },
                 { id := "c3", short_id := "s3", created_at := "d3", title := "t3", message := "t3" },
                 { id := "c4", short_id := "s4", created_at := "d4", title := "t4", message := "t4" },
                 { id := "c5", short_id := "s5", created_at := "d5", title := "t5", message := "t5" }] } := by
  exact C4_calculateMetrics_end_to_end
    (fun _ => .ok { name := "tag", commitId := some "hash" })
    (fun _ _ => .ok
      { commits :=
          [{ id := "c1", short_id := "s1", created_at := "d1", title := "t1", message := "t1" },
           { id := "c2", short_id := "s2", created_at := "d2", title := "t2", message := "t2" },
           { id := "c3", short_id := "s3", created_at := "d3", title := "t3", message := "t3" },
           { id := "c4", short_id := "s4", created_at := "d4", title := "t4", message := "t4" },
           { id := "c5", short_id := "s5", created_at := "d5", title := "t5", message := "t5" }]
        compare_timeout := false
        compare_same_ref := false })
    { olderTag := "v1.0.0", newerTag := "v2.0.0" }
    { name := "tag", commitId := some "hash" } { name := "tag", commitId := some "hash" }
    { commits :=
        [{ id := "c1", short_id := "s1", created_at := "d1", title := "t1", message := "t1" },
         { id := "c2", short_id := "s2", created_at := "d2", title := "t2", message := "t2" },
         { id := "c3", short_id := "s3", created_at := "d3", title := "t3", message := "t3" },
         { id := "c4", short_id := "s4", created_at := "d4", title := "t4", message := "t4" },
         { id := "c5", short_id := "s5", created_at := "d5", title := "t5", message := "t5" }]
      compare_timeout := false
      compare_same_ref := false }
    [] []
    { id := 1, name := "P" }
    [{ id := "b1", cf_8 := some "r1", cf_9 := some "p1", type_id := 2, estimate := none,
       workflow_stage_id := 9 },
     { id := "b2", cf_8 := some "r2", cf_9 := some "p2", type_id := 2, estimate := none,
       workflow_stage_id := 10 },
     { id := "f1", cf_8 := some "r3", cf_9 := some "p3", type_id := 1, estimate := none,
       workflow_stage_id := 9 },
     { id := "f2", cf_8 := some "r4", cf_9 := some "p4", type_id := 1, estimate := none,
       workflow_stage_id := 9 },
     { id := "f3", cf_8 := some "r5", cf_9 := some "p5", type_id := 1, estimate := none,
       workflow_stage_id := 10 }]
    (fun _ => 2)
    rfl rfl rfl rfl rfl rfl rfl rfl (by decide) (by decide) (by decide) (fun t _ => rfl)

namespace ProjectHealth.Flowlu

theorem makeRequest_ok (responses : ℕ → HttpOutcome) (k : ℕ) (d : String)
    (h : responses k = .ok d) : makeRequest responses k = .ok d := by
  rw [makeRequest.eq_def, h]

theorem makeRequest_429_retry (responses : ℕ → HttpOutcome) (k : ℕ) (m : String)
    (h : responses k = .err429 m) (hk : k < MAX_RETRIES) :
    makeRequest responses k = makeRequest responses (k + 1) := by
  rw [makeRequest.eq_def, h]
  simp [hk]

theorem makeRequest_429_stop (responses : ℕ → HttpOutcome) (k : ℕ) (m : String)
    (h : responses k = .err429 m) (hk : ¬ k < MAX_RETRIES) :
    makeRequest responses k = .error ("Flowlu API request failed: " ++ m) := by
  rw [makeRequest.eq_def, h]
  simp [hk]

theorem makeRequest_other (responses : ℕ → HttpOutcome) (k : ℕ) (m : String)
    (h : responses k = .errOther m) :
    makeRequest responses k = .error ("Flowlu API request failed: " ++ m) := by
  rw [makeRequest.eq_def, h]

theorem makeRequestCalls_ok (responses : ℕ → HttpOutcome) (k : ℕ) (d : String)
    (h : responses k = .ok d) : makeRequestCalls responses k = 1 := by
  rw [makeRequestCalls.eq_def, h]

theorem makeRequestCalls_429_retry (responses : ℕ → HttpOutcome) (k : ℕ) (m : String)
    (h : responses k = .err429 m) (hk : k < MAX_RETRIES) :
    makeRequestCalls responses k = 1 + makeRequestCalls responses (k + 1) := by
  rw [makeRequestCalls.eq_def, h]
  simp [hk]

theorem makeRequestCalls_429_stop (responses : ℕ → HttpOutcome) (k : ℕ) (m : String)
    (h : responses k = .err429 m) (hk : ¬ k < MAX_RETRIES) :
    makeRequestCalls responses k = 1 := by
  rw [makeRequestCalls.eq_def, h]
  simp [hk]

theorem makeRequestCalls_other (responses : ℕ → HttpOutcome) (k : ℕ) (m : String)
    (h : responses k = .errOther m) : makeRequestCalls responses k = 1 := by
  rw [makeRequestCalls.eq_def, h]

theorem makeRequestBackoff_429_retry (responses : ℕ → HttpOutcome) (k : ℕ) (m : String)
    (h : responses k = .err429 m) (hk : k < MAX_RETRIES) :
    makeRequestBackoff responses k = RETRY_DELAY + makeRequestBackoff responses (k + 1) := by
  rw [makeRequestBackoff.eq_def, h]
  simp [hk]

theorem makeRequestBackoff_429_stop (responses : ℕ → HttpOutcome) (k : ℕ) (m : String)
    (h : responses k = .err429 m) (hk : ¬ k < MAX_RETRIES) :
    makeRequestBackoff responses k = 0 := by
  rw [makeRequestBackoff.eq_def, h]
  simp [hk]

end ProjectHealth.Flowlu

/-- C5: the task-tracker client retries an HTTP 429 up to 3 times with a
fixed 2000 ms backoff before each retry, gives up with the wrapped error
once the 3 retry attempts are exhausted (4 HTTP calls in total), a 429
followed by a success on retry ultimately succeeds, and a non-429 error
is wrapped and rethrown after a single call. -/
theorem C5_flowlu_429_retry :
    (∀ (responses : ℕ → Flowlu.HttpOutcome) (m : String),
      (∀ k, responses k = .err429 m) →
      Flowlu.makeRequest responses 0 = .error ("Flowlu API request failed: " ++ m)
      ∧ Flowlu.makeRequestCalls responses 0 = 1 + Flowlu.MAX_RETRIES
      ∧ Flowlu.makeRequestBackoff responses 0 = Flowlu.MAX_RETRIES * Flowlu.RETRY_DELAY)
    ∧ (∀ (responses : ℕ → Flowlu.HttpOutcome) (m d : String),
      responses 0 = .err429 m → responses 1 = .ok d →
      Flowlu.makeRequest responses 0 = .ok d
      ∧ Flowlu.makeRequestCalls responses 0 = 2)
    ∧ (∀ (responses : ℕ → Flowlu.HttpOutcome) (m : String),
      responses 0 = .errOther m →
      Flowlu.makeRequest responses 0 = .error ("Flowlu API request failed: " ++ m)
      ∧ Flowlu.makeRequestCalls responses 0 = 1) := by
  refine ⟨fun responses m h => ⟨?_, ?_, ?_⟩, fun responses m d h0 h1 => ⟨?_, ?_⟩,
    fun responses m h0 => ⟨?_, ?_⟩⟩
  · rw [Flowlu.makeRequest_429_retry responses 0 m (h 0) (by decide),
      Flowlu.makeRequest_429_retry responses 1 m (h 1) (by decide),
      Flowlu.makeRequest_429_retry responses 2 m (h 2) (by decide),
      Flowlu.makeRequest_429_stop responses 3 m (h 3) (by decide)]
  · rw [Flowlu.makeRequestCalls_429_retry responses 0 m (h 0) (by decide),
      Flowlu.makeRequestCalls_429_retry responses 1 m (h 1) (by decide),
      Flowlu.makeRequestCalls_429_retry responses 2 m (h 2) (by decide),
      Flowlu.makeRequestCalls_429_stop responses 3 m (h 3) (by decide)]
    decide
  · rw [Flowlu.makeRequestBackoff_429_retry responses 0 m (h 0) (by decide),
      Flowlu.makeRequestBackoff_429_retry responses 1 m (h 1) (by decide),
      Flowlu.makeRequestBackoff_429_retry responses 2 m (h 2) (by decide),
      Flowlu.makeRequestBackoff_429_stop responses 3 m (h 3) (by decide)]
    decide
  · rw [Flowlu.makeRequest_429_retry responses 0 m h0 (by decide),
      Flowlu.makeRequest_ok responses 1 d h1]
  · rw [Flowlu.makeRequestCalls_429_retry responses 0 m h0 (by decide),
      Flowlu.makeRequestCalls_ok responses 1 d h1]
  · exact Flowlu.makeRequest_other responses 0 m h0
  · exact Flowlu.makeRequestCalls_other responses 0 m h0

/-- Witness for C5: an always-429 upstream exhausts the 3 retries and
fails with the wrapped message after 4 calls and 6000 ms of backoff; a
429 followed by a success succeeds in 2 calls; a plain failure is
wrapped immediately. -/
theorem C5_flowlu_429_retry_witness :
    Flowlu.makeRequest (fun _ => .err429 "Too Many Requests") 0
      = .error ("Flowlu API request failed: " ++ "Too Many Requests")
    ∧ Flowlu.makeRequestCalls (fun _ => .err429 "Too Many Requests") 0 = 1 + Flowlu.MAX_RETRIES
    ∧ Flowlu.makeRequestBackoff (fun _ => .err429 "Too Many Requests") 0
      = Flowlu.MAX_RETRIES * Flowlu.RETRY_DELAY
    ∧ Flowlu.makeRequest (fun k => if k = 0 then .err429 "rl" else .ok "payload") 0
      = .ok "payload"
    ∧ Flowlu.makeRequest (fun _ => .errOther "boom") 0
      = .error ("Flowlu API request failed: " ++ "boom") :=
  ⟨(C5_flowlu_429_retry.1 (fun _ => .err429 "Too Many Requests") "Too Many Requests"
      (fun _ => rfl)).1,
   (C5_flowlu_429_retry.1 (fun _ => .err429 "Too Many Requests") "Too Many Requests"
      (fun _ => rfl)).2.1,
   (C5_flowlu_429_retry.1 (fun _ => .err429 "Too Many Requests") "Too Many Requests"
      (fun _ => rfl)).2.2,
   (C5_flowlu_429_retry.2.1 (fun k => if k = 0 then .err429 "rl" else .ok "payload")
      "rl" "payload" rfl rfl).1,
   (C5_flowlu_429_retry.2.2 (fun _ => .errOther "boom") "boom" rfl).1⟩

/-- C6: when both tags resolve to truthy commit hashes and the upstream
compare response flags the comparison as same-reference or timed out,
`compareTags` surfaces the explicit thrown error message instead of
returning any commit list. -/
theorem C6_same_ref_timeout_surfaced :
    ∀ (getTag : String → Except String GitLab.GitLabTag)
      (compare : String → String → Except String GitLab.CompareResponse)
      (comparison : GitLab.TagComparison) (oldT newT : GitLab.GitLabTag)
      (resp : GitLab.CompareResponse),
      getTag comparison.olderTag = .ok oldT →
      getTag comparison.newerTag = .ok newT →
      strTruthy oldT.commitId = true →
      strTruthy newT.commitId = true →
      compare (oldT.commitId.getD "") (newT.commitId.getD "") = .ok resp →
      (resp.compare_same_ref = true →
        GitLab.compareTags getTag compare comparison
          = .error "Cannot compare the same reference")
      ∧ (resp.compare_same_ref = false → resp.compare_timeout = true →
        GitLab.compareTags getTag compare comparison = .error "Comparison timed out")
      ∧ ((resp.compare_same_ref = true ∨ resp.compare_timeout = true) →
        ∀ result, GitLab.compareTags getTag compare comparison ≠ .ok result) := by
  intro getTag compare comparison oldT newT resp h1 h2 h3 h4 h5
  have hct : ∀ e : String, GitLab.getCommitsBetweenTags (.ok resp) = .error e →
      GitLab.compareTags getTag compare comparison = .error e := by
    intro e he
    simp only [GitLab.compareTags, h1, h2, h3, h4, Bool.and_self, if_true, h5, he]
  refine ⟨fun hsame => ?_, fun hsame htime => ?_, fun hor result => ?_⟩
  · exact hct "Cannot compare the same reference"
      (by simp [GitLab.getCommitsBetweenTags, hsame])
  · exact hct "Comparison timed out"
      (by simp [GitLab.getCommitsBetweenTags, hsame, htime])
  · rcases hor with hsame | htime
    · rw [hct "Cannot compare the same reference"
        (by simp [GitLab.getCommitsBetweenTags, hsame])]
      simp
    · by_cases hsame : resp.compare_same_ref = true
      · rw [hct "Cannot compare the same reference"
          (by simp [GitLab.getCommitsBetweenTags, hsame])]
        simp
      · simp only [Bool.not_eq_true] at hsame
        rw [hct "Comparison timed out"
          (by simp [GitLab.getCommitsBetweenTags, hsame, htime])]
        simp

/-- Witness for C6: a same-reference flag and, separately, a timeout
flag each produce the explicit error on concrete inputs. -/
theorem C6_same_ref_timeout_surfaced_witness :
    GitLab.compareTags (fun _ => .ok { name := "t", commitId := some "h" })
        (fun _ _ => .ok { commits := [], compare_timeout := false, compare_same_ref := true })
        { olderTag := "v1", newerTag := "v1" }
      = .error "Cannot compare the same reference"
    ∧ GitLab.compareTags (fun _ => .ok { name := "t", commitId := some "h" })
        (fun _ _ => .ok { commits := [], compare_timeout := true, compare_same_ref := false })
        { olderTag := "v1", newerTag := "v2" }
      = .error "Comparison timed out" :=
  ⟨(C6_same_ref_timeout_surfaced (fun _ => .ok { name := "t", commitId := some "h" })
      (fun _ _ => .ok { commits := [], compare_timeout := false, compare_same_ref := true })
      { olderTag := "v1", newerTag := "v1" }
      { name := "t", commitId := some "h" } { name := "t", commitId := some "h" }
      { commits := [], compare_timeout := false, compare_same_ref := true }
      rfl rfl rfl rfl rfl).1 rfl,
   (C6_same_ref_timeout_surfaced (fun _ => .ok { name := "t", commitId := some "h" })
      (fun _ _ => .ok { commits := [], compare_timeout := true, compare_same_ref := false })
      { olderTag := "v1", newerTag := "v2" }
      { name := "t", commitId := some "h" } { name := "t", commitId := some "h" }
      { commits := [], compare_timeout := true, compare_same_ref := false }
      rfl rfl rfl rfl rfl).2.1 rfl rfl⟩

/-- Counterexample to C7 as stated: for a tag resolving to commit id
abc123 whose commit is contained in no branch, `getTagBranchInfo`
returns the real commit id alongside the unknown branch, not the
unknown sentinel for both fields. -/
theorem C7_counterexample_commit_id_kept :
    GitLab.getTagBranchInfo (.ok (some "abc123")) (fun _ => .ok [])
      = { branch := "unknown", commitId := "abc123" }
    ∧ GitLab.getTagBranchInfo (.ok (some "abc123")) (fun _ => .ok [])
      ≠ { branch := "unknown", commitId := "unknown" } := by
  constructor
  · rfl
  · decide

/-- C7 amended: `getTagBranchInfo` never propagates a failure: a tag
fetch error, a missing or empty commit id, or a branch-refs fetch error
yields the unknown sentinel for both fields, while a commit contained
in no branch (or whose first branch entry has no usable name) yields the
unknown branch together with the actual commit id. -/
theorem C7_branch_lookup_never_fails :
    (∀ msg refs, GitLab.getTagBranchInfo (.error msg) refs
      = { branch := "unknown", commitId := "unknown" })
    ∧ (∀ refs, GitLab.getTagBranchInfo (.ok none) refs
      = { branch := "unknown", commitId := "unknown" })
    ∧ (∀ refs, GitLab.getTagBranchInfo (.ok (some "")) refs
      = { branch := "unknown", commitId := "unknown" })
    ∧ (∀ cid refs msg, cid ≠ "" → refs cid = .error msg →
      GitLab.getTagBranchInfo (.ok (some cid)) refs
        = { branch := "unknown", commitId := "unknown" })
    ∧ (∀ cid refs, cid ≠ "" → refs cid = .ok [] →
      GitLab.getTagBranchInfo (.ok (some cid)) refs
        = { branch := "unknown", commitId := cid })
    ∧ (∀ cid refs rest, cid ≠ "" → refs cid = .ok (none :: rest) →
      GitLab.getTagBranchInfo (.ok (some cid)) refs
        = { branch := "unknown", commitId := cid }) := by
  refine ⟨fun msg refs => rfl, fun refs => rfl, fun refs => rfl,
    fun cid refs msg hc hr => ?_, fun cid refs hc hr => ?_, fun cid refs rest hc hr => ?_⟩
  · simp only [GitLab.getTagBranchInfo, if_neg hc, hr]
  · simp only [GitLab.getTagBranchInfo, if_neg hc, hr, List.head?]
  · simp only [GitLab.getTagBranchInfo, if_neg hc, hr, List.head?]

/-- Witness for C7: concrete inputs for each degraded case. -/
theorem C7_branch_lookup_never_fails_witness :
    GitLab.getTagBranchInfo (.error "boom") (fun _ => .ok [some "main"])
      = { branch := "unknown", commitId := "unknown" }
    ∧ GitLab.getTagBranchInfo (.ok (some "c0ffee")) (fun _ => .error "refs down")
      = { branch := "unknown", commitId := "unknown" }
    ∧ GitLab.getTagBranchInfo (.ok (some "c0ffee")) (fun _ => .ok [])
      = { branch := "unknown", commitId := "c0ffee" } :=
  ⟨C7_branch_lookup_never_fails.1 "boom" (fun _ => .ok [some "main"]),
   C7_branch_lookup_never_fails.2.2.2.1 "c0ffee" (fun _ => .error "refs down") "refs down"
     (by decide) rfl,
   C7_branch_lookup_never_fails.2.2.2.2.1 "c0ffee" (fun _ => .ok []) (by decide) rfl⟩

/-- Counterexample to C8 as stated: a metrics request missing the
required olderTag parameter is answered with status 500 (the ZodError
falls into the generic catch), not 400. -/
theorem C8_counterexample_missing_tag_is_500 :
    (Dashboard.getMetrics (fun _ => 0) (fun _ => .error "unreached")
        { olderTag := none, newerTag := some "v2.0.0", projectId := some "7" }).1 = 500
    ∧ (Dashboard.getMetrics (fun _ => 0) (fun _ => .error "unreached")
        { olderTag := none, newerTag := some "v2.0.0", projectId := some "7" }).1 ≠ 400 := by
  constructor
  · rfl
  · decide

/-- C8 amended: the dashboard facade maps every thrown error on the
metrics endpoint, ZodError from query validation included, to status 500
with the uniform error/details body; only the explicit missing-projectId
guard of the task-metrics endpoint answers 400, and its service errors
map to 500. -/
theorem C8_error_status_mapping :
    (∀ (toNumber : String → ℚ)
       (svc : Dashboard.ParsedMetricsQuery → Except String Dashboard.CalculateMetricsOk)
       (q : Dashboard.MetricsQuery),
      (q.olderTag = none ∨ q.newerTag = none ∨ q.projectId = none) →
      Dashboard.getMetrics toNumber svc q
        = (500, .failure "Failed to calculate metrics" "ZodError: Required"))
    ∧ (∀ (toNumber : String → ℚ)
       (svc : Dashboard.ParsedMetricsQuery → Except String Dashboard.CalculateMetricsOk)
       (q : Dashboard.MetricsQuery) (parsed : Dashboard.ParsedMetricsQuery) (e : String),
      Dashboard.zodParseMetricsQuery toNumber q = .ok parsed →
      svc parsed = .error e →
      Dashboard.getMetrics toNumber svc q = (500, .failure "Failed to calculate metrics" e))
    ∧ (∀ svc : String → Except String Dashboard.TaskMetricsOk,
      Dashboard.getTaskMetrics svc none
        = (400, .failure "Project ID is required"
            "Please provide a project ID in the query parameters"))
    ∧ (∀ (svc : String → Except String Dashboard.TaskMetricsOk) (p e : String),
      p ≠ "" → svc p = .error e →
      Dashboard.getTaskMetrics svc (some p)
        = (500, .failure "Failed to get task metrics" e)) := by
  refine ⟨fun toNumber svc q hmiss => ?_, fun toNumber svc q parsed e hq hsvc => ?_,
    fun svc => rfl, fun svc p e hp hsvc => ?_⟩
  · have hz : Dashboard.zodParseMetricsQuery toNumber q = .error "ZodError: Required" := by
      rcases q with ⟨o, n, pid⟩
      rcases hmiss with h | h | h
      · simp only at h
        subst h
        cases n <;> cases pid <;> rfl
      · simp only at h
        subst h
        cases o <;> cases pid <;> rfl
      · simp only at h
        subst h
        cases o <;> cases n <;> rfl
    simp only [Dashboard.getMetrics, hz]
  · simp only [Dashboard.getMetrics, hq, hsvc]
  · simp only [Dashboard.getTaskMetrics, if_neg hp, hsvc]

/-- Witness for C8 amended: concrete requests exercising each status
mapping. -/
theorem C8_error_status_mapping_witness :
    Dashboard.getMetrics (fun _ => 0) (fun _ => .error "unreached")
        { olderTag := none, newerTag := some "v2.0.0", projectId := some "7" }
      = (500, .failure "Failed to calculate metrics" "ZodError: Required")
    ∧ Dashboard.getMetrics (fun _ => 0) (fun _ => .error "gitlab down")
        { olderTag := some "v1.0.0", newerTag := some "v2.0.0", projectId := some "7" }
      = (500, .failure "Failed to calculate metrics" "gitlab down")
    ∧ Dashboard.getTaskMetrics (fun _ => .error "unreached") none
      = (400, .failure "Project ID is required"
          "Please provide a project ID in the query parameters")
    ∧ Dashboard.getTaskMetrics (fun _ => .error "flowlu down") (some "7")
      = (500, .failure "Failed to get task metrics" "flowlu down") :=
  ⟨C8_error_status_mapping.1 (fun _ => 0) (fun _ => .error "unreached")
      { olderTag := none, newerTag := some "v2.0.0", projectId := some "7" } (Or.inl rfl),
   C8_error_status_mapping.2.1 (fun _ => 0) (fun _ => .error "gitlab down")
      { olderTag := some "v1.0.0", newerTag := some "v2.0.0", projectId := some "7" }
      { olderTag := "v1.0.0", newerTag := "v2.0.0", projectId := some 0 } "gitlab down"
      (by simp [Dashboard.zodParseMetricsQuery]) rfl,
   C8_error_status_mapping.2.2.1 (fun _ => .error "unreached"),
   C8_error_status_mapping.2.2.2 (fun _ => .error "flowlu down") "7" "flowlu down"
      (by decide) rfl⟩

/-- Witness for C1: the quantified concatenation equation instantiated
at hours 2 and minutes 45. -/
theorem C1_parseDuration_literal_concatenation_witness :
    Clockify.getTaskActualDuration (.ok (Clockify.ptDurationString 2 45))
      = (2 : ℚ) + (45 : ℚ) / (10 : ℚ) ^ (Clockify.natToDec 45).length :=
  (C1_parseDuration_literal_concatenation.1 2 45).2

/-- Witness for C10: the zero-estimate classification instantiated at
actual duration 7. -/
theorem C10_zero_estimate_is_estimate_not_set_witness :
    Clockify.getDurationStatus (some 0) 7 = "Estimate Not Set" :=
  (C10_zero_estimate_is_estimate_not_set 7).1
